import Mathlib

/-!
Verification of the rinha-backend-2025 payment-processing core.

Shallow embedding of `app/services.py`, `app/queue.py` and `app/tasks.py`:
the Redis store (two sorted sets, the processed-marker keys, the `failing`
key, and the three list queues) is an explicit `Store` value, every
coroutine becomes a pure state-transformer, and the nondeterministic
environment (HTTP responses of the external processor, health-probe
results, pipeline exceptions) is passed in as explicit arguments.

Conventions of the embedding:
* JSON numbers (amounts, timestamps) are modelled as `ℚ`;
* a queue element is the parsed payment dict (`orjson` serialisation is
  deterministic, so the parsed value determines the raw bytes);
* `lpush` prepends to the head of a list, `brpop` removes from the tail,
  exactly as Redis does;
* a pipeline exception in a worker is modelled as occurring before the
  pipeline performs any effect (the worker's `except` branch then requeues
  the raw popped item);
* marker TTL expiry is not an explicit step: all statements about
  processed markers are within one liveness window of the marker.
-/

namespace Rinha

/-- A payment as enqueued by `tasks.add_payment`:
`{'correlationId': ..., 'amount': ...}`. -/
structure Payment where
  correlationId : String
  amount : ℚ
deriving Repr, DecidableEq

/-- The member stored by `services.save_payment` in a sorted set:
`{**payment, 'requested_at': timestamp}`. -/
structure LedgerEntry where
  correlationId : String
  amount : ℚ
  requested_at : ℚ
deriving Repr, DecidableEq

/-- A Redis sorted set: members with scores.  `save_payment` always scores
a member by its own `requested_at` timestamp, but the structure allows an
arbitrary score as Redis does. -/
abbrev ZSet := List (LedgerEntry × ℚ)

/-- Redis `ZADD key {member: score}`: update the score if the member is
already present, otherwise append the new member. -/
def zadd (m : LedgerEntry) (s : ℚ) (z : ZSet) : ZSet :=
  if z.any (fun p => decide (p.1 = m)) then
    z.map (fun p => if p.1 = m then (m, s) else p)
  else
    z ++ [(m, s)]

/-- Multiplicity of a member in a sorted set. -/
def zcountMember (m : LedgerEntry) (z : ZSet) : Nat :=
  (z.filter (fun p => decide (p.1 = m))).length

/-- Redis `ZRANGEBYSCORE key min max` (both bounds inclusive), with `none`
standing for `-inf` / `+inf` as passed by `get_summary`.  Aggregation in
the Lua script is order-insensitive over `ℚ`, so the stored order is kept. -/
def zrangebyscore (lo hi : Option ℚ) (z : ZSet) : List LedgerEntry :=
  (z.filter (fun p =>
    (match lo with
     | none => true
     | some l => decide (l ≤ p.2)) &&
    (match hi with
     | none => true
     | some h => decide (p.2 ≤ h)))).map Prod.fst

/-- The whole Redis state visible to the core. -/
structure Store where
  /-- sorted set at `settings.PAYMENT_ZKEY` (default partition) -/
  defaultZ : ZSet
  /-- sorted set at `settings.PAYMENT_FALLBACK_ZKEY` (fallback partition) -/
  fallbackZ : ZSet
  /-- correlation ids whose `processed:{id}` key is currently live -/
  markers : List String
  /-- value of the `failing` key, written by `health_check` -/
  failing : Option String
  /-- list at `settings.REDIS_QUEUE`; head = Redis left -/
  primaryQueue : List Payment
  /-- list at `settings.REDIS_FALLBACK_QUEUE` -/
  fallbackQueue : List Payment
  /-- list at `settings.REDIS_DEAD_LETTER_QUEUE` -/
  deadLetterQueue : List Payment
deriving Repr, DecidableEq

/-- Configuration values from `app/settings.py` that the embedded code
reads (both are integers in `.env`; the delay is kept in `ℚ` so it can be
compared with claimed pacing durations). -/
structure Settings where
  MAX_RETRIES : Nat
  FALLBACK_WORKER_DELAY : ℚ
deriving Repr, DecidableEq

/-- Result of one `httpx` POST: either a response with a status code, or a
`httpx.RequestError` (network failure / timeout). -/
inductive HttpResult where
  | response (status : Nat)
  | requestError
deriving Repr, DecidableEq

/-- Observable actions of a worker iteration, used to state pacing /
backoff properties. -/
inductive Event where
  | sleep (d : ℚ)
  | probe
  | dispatch (correlationId : String)
deriving Repr, DecidableEq

/-- Embeds `services.send_payment`: one `client.post` to the processor, then
`raise_for_status()`.  Returns `True` on a 2xx response; any
`httpx.RequestError` or `httpx.HTTPStatusError` is caught, logged and
yields `False`.  The function touches no Redis state, so it returns the
store unchanged alongside the boolean. -/
def send_payment (r : HttpResult) (st : Store) : Bool × Store :=
  match r with
  | .response status =>
      if 200 ≤ status ∧ status < 300 then (true, st) else (false, st)
  | .requestError => (false, st)

/-- Embeds `services.save_payment`: builds `{**payment, 'requested_at': ts}` and
`ZADD`s it, scored by the timestamp, into the fallback partition when
`is_fallback` else into the default partition. -/
def save_payment (st : Store) (p : Payment) (requestedAt : ℚ)
    (is_fallback : Bool) : Store :=
  let entry : LedgerEntry :=
    { correlationId := p.correlationId
      amount := p.amount
      requested_at := requestedAt }
  if is_fallback then
    { st with fallbackZ := zadd entry requestedAt st.fallbackZ }
  else
    { st with defaultZ := zadd entry requestedAt st.defaultZ }

/-- Modelled from the spec: `add_fallback_payment` is imported by
`app/services.py` from `app.tasks` but its definition is not among the
source files (the nearest present relative is
`tasks.add_payment_to_fallback_queue`).  Following the call site
`add_fallback_payment(correlationId, amount)`, the spec's fallback-queue
boundary (§6 `enqueue`) and the present twin function, it rebuilds the
payment dict from its two arguments and `LPUSH`es its JSON onto
`settings.REDIS_FALLBACK_QUEUE`. -/
def add_fallback_payment (st : Store) (correlation_id : String)
    (amount : ℚ) : Store :=
  { st with fallbackQueue :=
      { correlationId := correlation_id, amount := amount } :: st.fallbackQueue }

/-- Embeds `tasks.add_payment`: serialises `{'correlationId': ..., 'amount': ...}`
and `LPUSH`es it onto `settings.REDIS_QUEUE`. -/
def add_payment (st : Store) (correlation_id : String) (amount : ℚ) :
    Store :=
  { st with primaryQueue :=
      { correlationId := correlation_id, amount := amount } :: st.primaryQueue }

/-- The `redis_client.set(f'processed:{correlation_id}', 'true', ex=...)`
call of `payment_processor`: makes the marker live. -/
def mark_settled (st : Store) (correlation_id : String) : Store :=
  { st with markers := correlation_id :: st.markers }

/-- Embeds `services.payment_processor`: parse the item, skip if
`processed:{correlationId}` is live; otherwise send, and on success save
the payment and set the marker, on failure push the payment onto the
fallback queue — but only when `is_fallback` is false.  Besides the new
store it returns the list of observable events (one `dispatch` whenever
`send_payment` is actually invoked). -/
def payment_processor (st : Store) (data : Payment) (is_fallback : Bool)
    (request_at : ℚ) (httpResult : HttpResult) : Store × List Event :=
  if st.markers.contains data.correlationId then
    (st, [])
  else
    let ok := (send_payment httpResult st).1
    let st1 := (send_payment httpResult st).2
    if ok then
      let st2 := save_payment st1 data request_at is_fallback
      (mark_settled st2 data.correlationId,
       [Event.dispatch data.correlationId])
    else if is_fallback then
      (st1, [Event.dispatch data.correlationId])
    else
      (add_fallback_payment st1 data.correlationId data.amount,
       [Event.dispatch data.correlationId])

/-- Body of the health endpoint's JSON answer,
`{failing: bool, minResponseTime: int}`. -/
structure HealthResponse where
  failing : Bool
  minResponseTime : Nat
deriving Repr, DecidableEq

/-- Python `str()` of a boolean, as stored by `health_check` in the
`failing` key. -/
def pyStr (b : Bool) : String := if b then "True" else "False"

/-- Embeds `services.health_check`: GET `/service-health`; on success store
`str(response.get('failing'))` under the `failing` key; any exception
(network error, bad JSON — modelled as `none`) is caught and leaves the
store untouched. -/
def health_check (probe : Option HealthResponse) (st : Store) : Store :=
  match probe with
  | some resp => { st with failing := some (pyStr resp.failing) }
  | none => st

/-- One tick of `services.health_check_loop`: run `health_check` inside a
catch-all, then sleep 5 seconds; the loop body never propagates an
exception. -/
def health_check_loop_tick (probe : Option HealthResponse) (st : Store) :
    Store × List Event :=
  (health_check probe st, [Event.probe, Event.sleep 5])

/-- Redis `BRPOP`: remove and return the tail element of the list. -/
def brpop : List Payment → Option (List Payment × Payment)
  | [] => none
  | x :: xs =>
      match brpop xs with
      | none => some ([], x)
      | some (rest, last) => some (x :: rest, last)

/-- One iteration of `queue.consumer_loop`'s inner `worker` draining the
primary queue: `BRPOP` (empty pop loops again), then
`payment_processor(data)` with `is_fallback` defaulted to `False`; if the
pipeline raises (`pipelineRaises`), the `except` branch `LPUSH`es the raw
popped item back onto the same queue. -/
def worker_iteration (st : Store) (httpResult : HttpResult)
    (pipelineRaises : Bool) (request_at : ℚ) : Store × List Event :=
  match brpop st.primaryQueue with
  | none => (st, [])
  | some (rest, data) =>
      let st1 := { st with primaryQueue := rest }
      if pipelineRaises then
        ({ st1 with primaryQueue := data :: st1.primaryQueue }, [])
      else
        payment_processor st1 data false request_at httpResult

/-- One iteration of `queue.fallback_consumer_loop`'s inner
`fallback_worker`: `BRPOP` from the fallback queue, sleep the fixed
`settings.FALLBACK_WORKER_DELAY`, run `health_check()`, then
`payment_processor(data)` — again with `is_fallback` defaulted to
`False`; on a pipeline exception the raw item is `LPUSH`ed back onto the
fallback queue. -/
def fallback_worker_iteration (cfg : Settings) (st : Store)
    (probe : Option HealthResponse) (httpResult : HttpResult)
    (pipelineRaises : Bool) (request_at : ℚ) : Store × List Event :=
  match brpop st.fallbackQueue with
  | none => (st, [])
  | some (rest, data) =>
      let st1 := { st with fallbackQueue := rest }
      let preEvents := [Event.sleep cfg.FALLBACK_WORKER_DELAY, Event.probe]
      let st2 := health_check probe st1
      if pipelineRaises then
        ({ st2 with fallbackQueue := data :: st2.fallbackQueue }, preEvents)
      else
        let r := payment_processor st2 data false request_at httpResult
        (r.1, preEvents ++ r.2)

/-- A step of the whole system: a primary-worker iteration, a
fallback-worker iteration, a health-probe tick, or the HTTP layer
enqueuing a fresh payment. -/
inductive SysStep where
  | primary (httpResult : HttpResult) (pipelineRaises : Bool)
      (request_at : ℚ)
  | fallback (probe : Option HealthResponse) (httpResult : HttpResult)
      (pipelineRaises : Bool) (request_at : ℚ)
  | probeTick (probe : Option HealthResponse)
  | enqueue (correlation_id : String) (amount : ℚ)
deriving Repr

/-- Apply one system step to the store. -/
def applyStep (cfg : Settings) (st : Store) : SysStep → Store
  | .primary r raises t => (worker_iteration st r raises t).1
  | .fallback probe r raises t =>
      (fallback_worker_iteration cfg st probe r raises t).1
  | .probeTick probe => (health_check_loop_tick probe st).1
  | .enqueue cid amount => add_payment st cid amount

/-- Run a sequence of system steps. -/
def runTrace (cfg : Settings) (st : Store) : List SysStep → Store
  | [] => st
  | s :: rest => runTrace cfg (applyStep cfg st s) rest

/-- Per-partition totals of the summary endpoint's answer. -/
structure Summary where
  defaultTotalRequests : Nat
  defaultTotalAmount : ℚ
  fallbackTotalRequests : Nat
  fallbackTotalAmount : ℚ
deriving Repr, DecidableEq

/-- The loop of `LUA_SUMMARY_SCRIPT` over one partition's
`ZRANGEBYSCORE` result: bump the request counter and add
`tonumber(payment['amount'])` for each returned member. -/
def luaPartitionLoop (payments : List LedgerEntry) : Nat × ℚ :=
  payments.foldl (fun acc payment => (acc.1 + 1, acc.2 + payment.amount))
    (0, 0)

/-- Embeds `LUA_SUMMARY_SCRIPT`, evaluated server-side by `EVALSHA` as one atomic
script: two `ZRANGEBYSCORE` calls against the same store snapshot, then
the two counting loops. -/
def luaSummaryScript (st : Store) (minScore maxScore : Option ℚ) :
    Summary :=
  let default_payments := zrangebyscore minScore maxScore st.defaultZ
  let fallback_payments := zrangebyscore minScore maxScore st.fallbackZ
  let d := luaPartitionLoop default_payments
  let f := luaPartitionLoop fallback_payments
  { defaultTotalRequests := d.1
    defaultTotalAmount := d.2
    fallbackTotalRequests := f.1
    fallbackTotalAmount := f.2 }

/-- Embeds `services.get_summary`: convert the optional datetimes to timestamp
scores (`'-inf'`/`'+inf'` when omitted, modelled by `none`) and evaluate
the Lua script once. -/
def get_summary (st : Store) (_from _to : Option ℚ) : Summary :=
  luaSummaryScript st _from _to

/-- Restatement of the specification's summary clause, for the refinement
proof of the aggregation: per partition, the count and the amount-sum of
exactly the records whose `settledAt` score lies in `[from, to]`, bounds
omitted meaning `-inf` / `+inf`. -/
def summarySpec (st : Store) (_from _to : Option ℚ) : Summary :=
  let inRange : LedgerEntry × ℚ → Bool := fun p =>
    (match _from with
     | none => true
     | some l => decide (l ≤ p.2)) &&
    (match _to with
     | none => true
     | some h => decide (p.2 ≤ h))
  let d := st.defaultZ.filter inRange
  let f := st.fallbackZ.filter inRange
  { defaultTotalRequests := d.length
    defaultTotalAmount := (d.map (fun p => p.1.amount)).sum
    fallbackTotalRequests := f.length
    fallbackTotalAmount := (f.map (fun p => p.1.amount)).sum }

/-! ## Concrete sample data used by witnesses and counterexamples -/

/-- The empty Redis state. -/
def emptyStore : Store :=
  { defaultZ := []
    fallbackZ := []
    markers := []
    failing := none
    primaryQueue := []
    fallbackQueue := []
    deadLetterQueue := [] }

/-- The ledger member `save_payment` builds for a payment and timestamp. -/
def entryOf (p : Payment) (t : ℚ) : LedgerEntry :=
  { correlationId := p.correlationId, amount := p.amount,
    requested_at := t }

/-- Store with a live marker and one settled record for `"a1"`, used to
instantiate `duplicate_delivery_skipped`. -/
def markedStore : Store :=
  { emptyStore with
      markers := ["a1"]
      defaultZ := [({ correlationId := "a1", amount := 100,
                      requested_at := 0 }, 0)] }

/-- Whether an event is a sleep. -/
def Event.isSleep : Event → Bool
  | .sleep _ => true
  | _ => false

/-- Returns `true` iff every dispatch in the list is preceded by at least one
sleep event; `seen` records whether a sleep has occurred yet. -/
def sleepPrecedesDispatches (seen : Bool) : List Event → Bool
  | [] => true
  | Event.sleep _ :: rest => sleepPrecedesDispatches true rest
  | Event.probe :: rest => sleepPrecedesDispatches seen rest
  | Event.dispatch _ :: rest => seen && sleepPrecedesDispatches seen rest

/-- Sample payment used in concrete runs. -/
def pA : Payment := { correlationId := "a2", amount := 50 }

/-- Second sample payment used in concrete runs. -/
def pB : Payment := { correlationId := "b1", amount := 10 }

/-- Concrete configuration for the counterexample runs. -/
def cfgCx : Settings := { MAX_RETRIES := 1, FALLBACK_WORKER_DELAY := 1 }

/-- Store holding the single payment `pA` on the primary queue. -/
def stCx : Store := { emptyStore with primaryQueue := [pA] }

/-- Trace in which the dispatch of `pA` fails on the primary path and
then once more on the fallback path: `cfgCx.MAX_RETRIES + 1 = 2`
consecutive failures. -/
def trCx : List SysStep :=
  [.primary (.response 500) false 0, .fallback none (.response 500) false 1]

/-- Store with the failing flag published and `pB` pending on the
primary queue. -/
def stC5 : Store :=
  { emptyStore with failing := some "True", primaryQueue := [pB] }

/-- Store with `pB` pending on the primary queue. -/
def stW1 : Store := { emptyStore with primaryQueue := [pB] }

/-- Store with `pA` pending on the fallback queue. -/
def stW2 : Store := { emptyStore with fallbackQueue := [pA] }

/-! ## Helper lemmas -/

/-- Lemma: `send_payment` never writes to the store. -/
lemma send_payment_snd (r : HttpResult) (st : Store) :
    (send_payment r st).2 = st := by
  cases r with
  | response status =>
      by_cases h : 200 ≤ status ∧ status < 300 <;> simp [send_payment, h]
  | requestError => rfl

/-- The counting loop of the Lua script computes length and amount-sum. -/
lemma luaPartitionLoop_eq (l : List LedgerEntry) :
    luaPartitionLoop l = (l.length, (l.map (fun e => e.amount)).sum) := by
  suffices h : ∀ (n : Nat) (q : ℚ),
      l.foldl (fun acc payment => (acc.1 + 1, acc.2 + payment.amount)) (n, q)
        = (n + l.length, q + (l.map (fun e => e.amount)).sum) by
    simpa [luaPartitionLoop] using h 0 0
  induction l with
  | nil => intro n q; simp
  | cons x xs ih =>
      intro n q
      simp only [List.foldl_cons, List.length_cons, List.map_cons,
        List.sum_cons, ih]
      refine Prod.ext ?_ ?_
      · simp; omega
      · simp; ring

/-- Filtering after a pointwise predicate-preserving map keeps the count. -/
lemma length_filter_map_of_pred_inv {α : Type} (f : α → α) (q : α → Bool)
    (h : ∀ a, q (f a) = q a) (l : List α) :
    ((l.map f).filter q).length = (l.filter q).length := by
  induction l with
  | nil => rfl
  | cons a as ih =>
      by_cases ha : q a = true <;>
        simp [List.filter_cons, h a, ha, ih]

/-- Number of ledger entries carrying a given correlation id in one
partition. -/
def countCidZ (cid : String) (z : ZSet) : Nat :=
  (z.filter (fun p => decide (p.1.correlationId = cid))).length

/-- Number of ledger entries carrying a given correlation id across both
partitions. -/
def cidRecords (cid : String) (st : Store) : Nat :=
  countCidZ cid st.defaultZ + countCidZ cid st.fallbackZ

/-- The idempotency invariant of the data model: a correlation id whose
`processed:` marker is not live has no ledger record, and no correlation
id ever has more than one ledger record. -/
def IdemInv (cid : String) (st : Store) : Prop :=
  (st.markers.contains cid = false → cidRecords cid st = 0) ∧
  cidRecords cid st ≤ 1

instance (cid : String) (st : Store) : Decidable (IdemInv cid st) :=
  inferInstanceAs (Decidable (_ ∧ _))

/-- The update branch of `zadd` keeps per-correlation-id counts. -/
lemma countCidZ_map_update (cid : String) (m : LedgerEntry) (s : ℚ)
    (z : ZSet) :
    countCidZ cid (z.map (fun p => if p.1 = m then (m, s) else p)) =
      countCidZ cid z := by
  unfold countCidZ
  apply length_filter_map_of_pred_inv
  intro p
  by_cases h : p.1 = m <;> simp [h]

/-- Lemma: `countCidZ` distributes over append. -/
lemma countCidZ_append (cid : String) (z1 z2 : ZSet) :
    countCidZ cid (z1 ++ z2) = countCidZ cid z1 + countCidZ cid z2 := by
  simp [countCidZ, List.filter_append]

/-- Effect of `zadd` on the per-correlation-id count. -/
lemma countCidZ_zadd (cid : String) (m : LedgerEntry) (s : ℚ) (z : ZSet) :
    countCidZ cid (zadd m s z) =
      if z.any (fun p => decide (p.1 = m)) then countCidZ cid z
      else countCidZ cid z + (if m.correlationId = cid then 1 else 0) := by
  unfold zadd
  split
  · next h => simp [h, countCidZ_map_update]
  · next h =>
      simp only [h, if_false, countCidZ_append]
      by_cases hc : m.correlationId = cid <;> simp [countCidZ, hc]

/-- A member whose correlation id has count zero is absent from the set. -/
lemma not_mem_of_countCidZ_zero {cid : String} {m : LedgerEntry}
    {z : ZSet} (hcid : m.correlationId = cid)
    (h0 : countCidZ cid z = 0) :
    z.any (fun p => decide (p.1 = m)) = false := by
  by_contra hc
  rw [Bool.not_eq_false, List.any_eq_true] at hc
  obtain ⟨p, hp, hpm⟩ := hc
  rw [decide_eq_true_eq] at hpm
  unfold countCidZ at h0
  rw [List.length_eq_zero] at h0
  have hmem : p ∈ z.filter (fun p => decide (p.1.correlationId = cid)) :=
    List.mem_filter.2 ⟨hp, by simp [hpm, hcid]⟩
  rw [h0] at hmem
  exact absurd hmem (List.not_mem_nil p)

/-- Lemma: `health_check` writes only the `failing` key. -/
lemma health_check_fields (probe : Option HealthResponse) (st : Store) :
    (health_check probe st).defaultZ = st.defaultZ ∧
    (health_check probe st).fallbackZ = st.fallbackZ ∧
    (health_check probe st).markers = st.markers ∧
    (health_check probe st).primaryQueue = st.primaryQueue ∧
    (health_check probe st).fallbackQueue = st.fallbackQueue ∧
    (health_check probe st).deadLetterQueue = st.deadLetterQueue := by
  cases probe <;> exact ⟨rfl, rfl, rfl, rfl, rfl, rfl⟩

/-- The invariant only looks at the partitions and the markers. -/
lemma IdemInv_congr {cid : String} {st st' : Store}
    (hd : st'.defaultZ = st.defaultZ) (hf : st'.fallbackZ = st.fallbackZ)
    (hm : st'.markers = st.markers) :
    IdemInv cid st → IdemInv cid st' := by
  unfold IdemInv cidRecords
  rw [hd, hf, hm]
  exact id

/-- Lemma: `save_payment` writes nothing beyond the selected partition. -/
lemma save_payment_fields (st : Store) (p : Payment) (t : ℚ) (f : Bool) :
    (save_payment st p t f).markers = st.markers ∧
    (save_payment st p t f).failing = st.failing ∧
    (save_payment st p t f).primaryQueue = st.primaryQueue ∧
    (save_payment st p t f).fallbackQueue = st.fallbackQueue ∧
    (save_payment st p t f).deadLetterQueue = st.deadLetterQueue := by
  cases f <;> exact ⟨rfl, rfl, rfl, rfl, rfl⟩

/-- Explicit form of the marker-live branch of `payment_processor`. -/
lemma payment_processor_skip {st : Store} {data : Payment}
    {f : Bool} {t : ℚ} {r : HttpResult}
    (h : data.correlationId ∈ st.markers) :
    payment_processor st data f t r = (st, []) := by
  simp [payment_processor, h]

/-- Explicit form of the successful-dispatch branch of
`payment_processor`. -/
lemma payment_processor_success {st : Store} {data : Payment}
    {f : Bool} {t : ℚ} {r : HttpResult}
    (hm : data.correlationId ∉ st.markers)
    (hok : (send_payment r st).1 = true) :
    payment_processor st data f t r =
      (mark_settled (save_payment st data t f) data.correlationId,
        [Event.dispatch data.correlationId]) := by
  simp [payment_processor, hm, hok, send_payment_snd]

/-- Explicit form of the failed-dispatch branch of `payment_processor`. -/
lemma payment_processor_failure {st : Store} {data : Payment}
    {f : Bool} {t : ℚ} {r : HttpResult}
    (hm : data.correlationId ∉ st.markers)
    (hok : (send_payment r st).1 = false) :
    payment_processor st data f t r =
      (if f then st
       else add_fallback_payment st data.correlationId data.amount,
        [Event.dispatch data.correlationId]) := by
  cases f <;>
    simp [payment_processor, hm, hok, send_payment_snd]

/-- Lemma: `payment_processor` preserves the idempotency invariant, whatever the
delivered item, path and dispatch outcome. -/
lemma payment_processor_preserves_IdemInv (cid : String) (st : Store)
    (data : Payment) (f : Bool) (t : ℚ) (r : HttpResult)
    (h : IdemInv cid st) :
    IdemInv cid (payment_processor st data f t r).1 := by
  by_cases hm : data.correlationId ∈ st.markers
  · simpa [payment_processor_skip hm] using h
  · cases hok : (send_payment r st).1
    · -- dispatch failed: only queues may change
      rw [payment_processor_failure hm hok]
      cases f
      · exact IdemInv_congr rfl rfl rfl h
      · exact IdemInv_congr rfl rfl rfl h
    · -- dispatch succeeded: one zadd plus the marker write
      rw [payment_processor_success hm hok]
      have hrecM : ∀ s : Store, cidRecords cid (mark_settled s
          data.correlationId) = cidRecords cid s := fun s => rfl
      have hmkM : ∀ s : Store, (mark_settled s data.correlationId).markers =
          data.correlationId :: s.markers := fun s => rfl
      have hmkS : (save_payment st data t f).markers = st.markers :=
        (save_payment_fields st data t f).1
      by_cases hdc : data.correlationId = cid
      · -- the delivered item is the tracked correlation id
        subst hdc
        have hmc : st.markers.contains data.correlationId = false := by
          simpa using hm
        have h0 : cidRecords data.correlationId st = 0 := h.1 hmc
        have hd0 : countCidZ data.correlationId st.defaultZ = 0 := by
          unfold cidRecords at h0; omega
        have hf0 : countCidZ data.correlationId st.fallbackZ = 0 := by
          unfold cidRecords at h0; omega
        have habsD := not_mem_of_countCidZ_zero
          (m := ⟨data.correlationId, data.amount, t⟩) rfl hd0
        have habsF := not_mem_of_countCidZ_zero
          (m := ⟨data.correlationId, data.amount, t⟩) rfl hf0
        have hone : cidRecords data.correlationId
            (save_payment st data t f) = 1 := by
          cases f <;>
            simp [save_payment, cidRecords, countCidZ_zadd, habsD, habsF,
              hd0, hf0]
        constructor
        · intro hcon
          rw [hmkM, hmkS] at hcon
          simp at hcon
        · rw [hrecM, hone]
      · -- a different correlation id: counts for `cid` are untouched
        have hcount : ∀ (zz : ZSet) (s : ℚ),
            countCidZ cid (zadd ⟨data.correlationId, data.amount, t⟩ s zz) =
              countCidZ cid zz := by
          intro zz s
          rw [countCidZ_zadd]
          split <;> simp [hdc]
        have hrec : cidRecords cid (save_payment st data t f) =
            cidRecords cid st := by
          cases f <;> simp [save_payment, cidRecords, hcount]
        constructor
        · intro hcon
          rw [hmkM, hmkS] at hcon
          have hst : st.markers.contains cid = false := by
            simp only [List.contains_cons] at hcon
            exact (Bool.or_eq_false_iff.mp hcon).2
          rw [hrecM, hrec]
          exact h.1 hst
        · rw [hrecM, hrec]
          exact h.2

/-- Every system step preserves the idempotency invariant. -/
lemma applyStep_preserves_IdemInv (cfg : Settings) (cid : String)
    (st : Store) (s : SysStep) (h : IdemInv cid st) :
    IdemInv cid (applyStep cfg st s) := by
  cases s with
  | primary r raises t =>
      simp only [applyStep, worker_iteration]
      cases hb : brpop st.primaryQueue with
      | none => exact h
      | some pr =>
          obtain ⟨rest, data⟩ := pr
          have h1 : IdemInv cid { st with primaryQueue := rest } :=
            IdemInv_congr rfl rfl rfl h
          cases raises
          · simpa using payment_processor_preserves_IdemInv cid _ data
              false t r h1
          · exact IdemInv_congr rfl rfl rfl h1
  | fallback probe r raises t =>
      simp only [applyStep, fallback_worker_iteration]
      cases hb : brpop st.fallbackQueue with
      | none => exact h
      | some pr =>
          obtain ⟨rest, data⟩ := pr
          have h1 : IdemInv cid { st with fallbackQueue := rest } :=
            IdemInv_congr rfl rfl rfl h
          have h2 : IdemInv cid
              (health_check probe { st with fallbackQueue := rest }) := by
            obtain ⟨hd, hf, hm, -⟩ := health_check_fields probe
              { st with fallbackQueue := rest }
            exact IdemInv_congr hd hf hm h1
          cases raises
          · simpa using payment_processor_preserves_IdemInv cid _ data
              false t r h2
          · obtain ⟨hd, hf, hm, -⟩ := health_check_fields probe
              { st with fallbackQueue := rest }
            exact IdemInv_congr (by simp [hd]) (by simp [hf])
              (by simp [hm]) h1
  | probeTick probe =>
      obtain ⟨hd, hf, hm, -⟩ := health_check_fields probe st
      exact IdemInv_congr hd hf hm h
  | enqueue cidN amount => exact IdemInv_congr rfl rfl rfl h

/-- Whole traces preserve the idempotency invariant. -/
lemma runTrace_preserves_IdemInv (cfg : Settings) (cid : String)
    (tr : List SysStep) (st : Store) (h : IdemInv cid st) :
    IdemInv cid (runTrace cfg st tr) := by
  induction tr generalizing st with
  | nil => exact h
  | cons s rest ih =>
      exact ih _ (applyStep_preserves_IdemInv cfg cid st s h)

/-! ## Claims -/

/-- C2: `get_summary` returns, per partition (default and fallback), the
count and the amount-sum of exactly those ledger records whose `settledAt`
score lies in `[from, to]`, an omitted bound meaning `-inf` / `+inf`; the
aggregation is the single server-side `LUA_SUMMARY_SCRIPT`, evaluated by
one `EVALSHA` against one store snapshot (both partitions are read from
the same `Store` argument of `luaSummaryScript`, so there is no torn read
between the two partition reads). -/
theorem get_summary_eq_summarySpec (st : Store) (_from _to : Option ℚ) :
    get_summary st _from _to = summarySpec st _from _to := by
  simp only [get_summary, luaSummaryScript, summarySpec, zrangebyscore,
    luaPartitionLoop_eq, List.map_map, List.length_map, Summary.mk.injEq]
  exact ⟨trivial, rfl, trivial, rfl⟩

/-- C1: whenever `payment_processor` is invoked for a payment whose
`correlationId` has a live `processed:` marker, it returns immediately —
no dispatch event, no ledger write, no marker change, no queue touched
(the duplicate is silently dropped) — and consequently every sequence of
system steps preserves the idempotency invariant: a correlation id never
carries two ledger records while its marker is live. -/
theorem duplicate_delivery_skipped (st : Store) (data : Payment)
    (is_fallback : Bool) (t : ℚ) (r : HttpResult) (cfg : Settings)
    (cid : String) (tr : List SysStep)
    (hlive : st.markers.contains data.correlationId = true) :
    payment_processor st data is_fallback t r = (st, []) ∧
    (IdemInv cid st → IdemInv cid (runTrace cfg st tr)) := by
  refine ⟨payment_processor_skip ?_,
    runTrace_preserves_IdemInv cfg cid tr st⟩
  simpa using hlive


/-- Concrete instance of `duplicate_delivery_skipped`: a redelivery of
`"a1"` while its marker is live changes nothing, and a subsequent step
keeps the invariant. -/
theorem duplicate_delivery_skipped_witness :
    payment_processor markedStore
        { correlationId := "a1", amount := 100 } false 0
        (.response 200) = (markedStore, []) ∧
    IdemInv "a1" (runTrace { MAX_RETRIES := 3, FALLBACK_WORKER_DELAY := 1 }
      markedStore [.primary (.response 200) false 1]) := by
  have h := duplicate_delivery_skipped markedStore
    { correlationId := "a1", amount := 100 } false 0 (.response 200)
    { MAX_RETRIES := 3, FALLBACK_WORKER_DELAY := 1 } "a1"
    [.primary (.response 200) false 1] (by decide)
  exact ⟨h.1, h.2 (by decide)⟩

/-- C9: with `is_fallback = True`, a payment whose idempotency check
passes and whose dispatch fails leaves the store entirely unchanged: no
ledger record, no marker, no queue push — `payment_processor` silently
drops it. -/
theorem fallback_failure_drops_payment (st : Store) (data : Payment)
    (t : ℚ) (r : HttpResult)
    (hm : st.markers.contains data.correlationId = false)
    (hf : (send_payment r st).1 = false) :
    payment_processor st data true t r =
      (st, [Event.dispatch data.correlationId]) := by
  have hm' : data.correlationId ∉ st.markers := by simpa using hm
  simpa using payment_processor_failure hm' hf

/-- Concrete instance of `fallback_failure_drops_payment`: a 500 answer
on the fallback path leaves the empty store empty. -/
theorem fallback_failure_drops_payment_witness :
    payment_processor emptyStore { correlationId := "a9", amount := 50 }
        true 0 (.response 500) =
      (emptyStore, [Event.dispatch "a9"]) :=
  fallback_failure_drops_payment emptyStore
    { correlationId := "a9", amount := 50 } 0 (.response 500)
    (by decide) (by decide)

/-- After a `zadd` of a member, that member is present. -/
lemma zadd_mem_any (m : LedgerEntry) (s : ℚ) (z : ZSet) :
    (zadd m s z).any (fun p => decide (p.1 = m)) = true := by
  unfold zadd
  split
  · next h =>
      rw [List.any_eq_true] at h ⊢
      obtain ⟨p, hp, hpm⟩ := h
      rw [decide_eq_true_eq] at hpm
      refine ⟨(m, s), ?_, by simp⟩
      rw [List.mem_map]
      exact ⟨p, hp, by rw [if_pos hpm]⟩
  · rw [List.any_eq_true]
    exact ⟨(m, s), by simp, by simp⟩

/-- When the member is present, `zadd` is the score-update map. -/
lemma zadd_of_mem (m : LedgerEntry) (s : ℚ) {z : ZSet}
    (h : z.any (fun p => decide (p.1 = m)) = true) :
    zadd m s z = z.map (fun p => if p.1 = m then (m, s) else p) := by
  unfold zadd
  rw [if_pos h]

/-- In `zadd m s z`, the unique element keyed by `m` is `(m, s)`. -/
lemma eq_of_mem_zadd_fst (m : LedgerEntry) (s : ℚ) (z : ZSet)
    (p : LedgerEntry × ℚ) (hp : p ∈ zadd m s z) (hpm : p.1 = m) :
    p = (m, s) := by
  unfold zadd at hp
  split at hp
  · rw [List.mem_map] at hp
    obtain ⟨q, hq, hfq⟩ := hp
    by_cases hqm : q.1 = m
    · rw [if_pos hqm] at hfq
      exact hfq.symm
    · rw [if_neg hqm] at hfq
      subst hfq
      exact absurd hpm hqm
  · next h =>
      rw [List.mem_append] at hp
      cases hp with
      | inl hz =>
          exfalso
          apply h
          rw [List.any_eq_true]
          exact ⟨p, hz, by simp [hpm]⟩
      | inr hone => simpa using hone

/-- Lemma: `zadd` with identical member and score is idempotent. -/
lemma zadd_idem (m : LedgerEntry) (s : ℚ) (z : ZSet) :
    zadd m s (zadd m s z) = zadd m s z := by
  rw [zadd_of_mem m s (zadd_mem_any m s z)]
  conv_rhs => rw [← List.map_id (zadd m s z)]
  apply List.map_congr_left
  intro p hp
  by_cases hpm : p.1 = m
  · rw [if_pos hpm, eq_of_mem_zadd_fst m s z p hp hpm]
    rfl
  · rw [if_neg hpm]
    rfl

/-- An absent member has a false `any` probe. -/
lemma any_eq_false_of_zcount_zero {m : LedgerEntry} {z : ZSet}
    (h : zcountMember m z = 0) :
    z.any (fun p => decide (p.1 = m)) = false := by
  by_contra hc
  rw [Bool.not_eq_false, List.any_eq_true] at hc
  obtain ⟨p, hp, hpm⟩ := hc
  unfold zcountMember at h
  rw [List.length_eq_zero] at h
  have hmem : p ∈ z.filter (fun p => decide (p.1 = m)) :=
    List.mem_filter.2 ⟨hp, hpm⟩
  rw [h] at hmem
  exact absurd hmem (List.not_mem_nil p)

/-- Adding an absent member yields multiplicity exactly one. -/
lemma zcount_zadd_of_absent {m : LedgerEntry} {z : ZSet} (s : ℚ)
    (h : zcountMember m z = 0) :
    zcountMember m (zadd m s z) = 1 := by
  unfold zadd
  rw [any_eq_false_of_zcount_zero h]
  simp only [Bool.false_eq_true, if_false]
  unfold zcountMember at h ⊢
  rw [List.filter_append, List.length_append, h]
  simp

/-- C10: `save_payment` is idempotent for identical arguments: the JSON
member serialises identically, sorted-set members are unique, so the
partition ends with exactly one such record and `get_summary` counts the
duplicate settlement once. -/
theorem save_payment_idempotent (st : Store) (p : Payment) (t : ℚ)
    (f : Bool) (lo hi : Option ℚ) :
    save_payment (save_payment st p t f) p t f = save_payment st p t f ∧
    (zcountMember (entryOf p t)
        (if f then st.fallbackZ else st.defaultZ) = 0 →
      zcountMember (entryOf p t)
        (if f then (save_payment (save_payment st p t f) p t f).fallbackZ
         else (save_payment (save_payment st p t f) p t f).defaultZ) = 1) ∧
    get_summary (save_payment (save_payment st p t f) p t f) lo hi =
      get_summary (save_payment st p t f) lo hi := by
  have hidem :
      save_payment (save_payment st p t f) p t f = save_payment st p t f := by
    cases f <;> simp [save_payment, zadd_idem]
  refine ⟨hidem, ?_, by rw [hidem]⟩
  intro h0
  rw [hidem]
  cases f <;>
    simpa [save_payment] using
      zcount_zadd_of_absent t (by simpa using h0)

/-- Concrete instance of `save_payment_idempotent`: two identical
settlements of `"c10"` leave a single record. -/
theorem save_payment_idempotent_witness :
    zcountMember (entryOf { correlationId := "c10", amount := 25 } 3)
      ((save_payment (save_payment emptyStore
          { correlationId := "c10", amount := 25 } 3 false)
          { correlationId := "c10", amount := 25 } 3 false).defaultZ) = 1 := by
  have h := (save_payment_idempotent emptyStore
    { correlationId := "c10", amount := 25 } 3 false none none).2.1
  simpa using h (by decide)

/-- C8: on an unexpected pipeline exception the primary worker requeues
the raw popped item, unchanged, onto the primary queue, and the fallback
worker requeues it onto the fallback queue — each onto the very queue it
was popped from; both iterations return normally, so the loops continue
(the `except` branch catches the exception). -/
theorem worker_requeues_raw_item_on_exception
    (st st2 : Store) (r r2 : HttpResult) (t t2 : ℚ) (cfg : Settings)
    (probe : Option HealthResponse)
    (rest rest2 : List Payment) (data data2 : Payment)
    (h1 : brpop st.primaryQueue = some (rest, data))
    (h2 : brpop st2.fallbackQueue = some (rest2, data2)) :
    (worker_iteration st r true t).1 =
      { st with primaryQueue := data :: rest } ∧
    (fallback_worker_iteration cfg st2 probe r2 true t2).1 =
      { health_check probe st2 with fallbackQueue := data2 :: rest2 } := by
  constructor
  · simp [worker_iteration, h1]
  · cases probe <;> simp [fallback_worker_iteration, h2, health_check]

/-- Concrete instance of `worker_requeues_raw_item_on_exception`: a
single-item queue is restored exactly after the exception. -/
theorem worker_requeues_raw_item_on_exception_witness :
    (worker_iteration stW1 (.response 200) true 0).1 = stW1 ∧
    (fallback_worker_iteration cfgCx stW2 none (.response 200) true 0).1 =
      stW2 := by
  have h := worker_requeues_raw_item_on_exception stW1 stW2
    (.response 200) (.response 200) 0 0 cfgCx none [] [] pB pA
    (by decide) (by decide)
  exact ⟨h.1.trans (by decide), h.2.trans (by decide)⟩

/-- Lemma: `payment_processor` never touches the dead-letter queue. -/
lemma payment_processor_dlq (st : Store) (data : Payment) (f : Bool)
    (t : ℚ) (r : HttpResult) :
    ((payment_processor st data f t r).1).deadLetterQueue =
      st.deadLetterQueue := by
  by_cases hm : data.correlationId ∈ st.markers
  · rw [payment_processor_skip hm]
  · cases hok : (send_payment r st).1
    · rw [payment_processor_failure hm hok]
      cases f <;> rfl
    · rw [payment_processor_success hm hok]
      exact (save_payment_fields st data t f).2.2.2.2

/-- No single system step touches the dead-letter queue. -/
lemma applyStep_dlq (cfg : Settings) (st : Store) (s : SysStep) :
    (applyStep cfg st s).deadLetterQueue = st.deadLetterQueue := by
  cases s with
  | primary r raises t =>
      simp only [applyStep, worker_iteration]
      cases hb : brpop st.primaryQueue with
      | none => rfl
      | some pr =>
          obtain ⟨rest, data⟩ := pr
          cases raises
          · simpa using payment_processor_dlq
              { st with primaryQueue := rest } data false t r
          · rfl
  | fallback probe r raises t =>
      simp only [applyStep, fallback_worker_iteration]
      cases hb : brpop st.fallbackQueue with
      | none => rfl
      | some pr =>
          obtain ⟨rest, data⟩ := pr
          have hhc := (health_check_fields probe
            { st with fallbackQueue := rest }).2.2.2.2.2
          cases raises
          · have hpp := payment_processor_dlq
              (health_check probe { st with fallbackQueue := rest })
              data false t r
            simpa [hhc] using hpp
          · simpa using hhc
  | probeTick probe => exact (health_check_fields probe st).2.2.2.2.2
  | enqueue cid amount => rfl

/-- No trace of system steps touches the dead-letter queue. -/
lemma runTrace_dlq (cfg : Settings) (tr : List SysStep) (st : Store) :
    (runTrace cfg st tr).deadLetterQueue = st.deadLetterQueue := by
  induction tr generalizing st with
  | nil => rfl
  | cons s rest ih =>
      exact (ih (applyStep cfg st s)).trans (applyStep_dlq cfg st s)

/-- C3 (amended): nothing is ever pushed onto the dead-letter queue.
Queue items carry no `retryCount`, `settings.MAX_RETRIES` is read by no
code path, and a failed dispatch re-enqueues the item onto the fallback
queue indefinitely, so no step and no trace ever modifies
`REDIS_DEAD_LETTER_QUEUE`. -/
theorem dead_letter_queue_never_written (cfg : Settings) (st : Store)
    (s : SysStep) (tr : List SysStep) :
    (applyStep cfg st s).deadLetterQueue = st.deadLetterQueue ∧
    (runTrace cfg st tr).deadLetterQueue = st.deadLetterQueue :=
  ⟨applyStep_dlq cfg st s, runTrace_dlq cfg tr st⟩

/-- Counterexample to C3 as stated: with `MAX_RETRIES = 1`, after
`MAX_RETRIES + 1 = 2` consecutive dispatch failures of the same item the
dead-letter queue is still empty and the item is back on the fallback
queue (it reappears instead of being dead-lettered). -/
theorem dead_letter_counterexample :
    cfgCx.MAX_RETRIES + 1 = 2 ∧
    runTrace cfgCx stCx trCx =
      { emptyStore with fallbackQueue := [pA] } := by
  constructor
  · rfl
  · decide

/-- C4 (amended): `send_payment` performs exactly one outbound call and
classifies it binarily: a 2xx response yields `True`, any non-2xx
response and any network failure / timeout yield `False`; it never
writes to the store (no failing hint on a 5xx, no distinction between
5xx and other failures). -/
theorem send_payment_classification (r : HttpResult) (st : Store)
    (status : Nat) :
    (send_payment r st).2 = st ∧
    (send_payment (.response status) st).1 =
      decide (200 ≤ status ∧ status < 300) ∧
    (send_payment .requestError st).1 = false := by
  refine ⟨send_payment_snd r st, ?_, rfl⟩
  by_cases h : 200 ≤ status ∧ status < 300 <;> simp [send_payment, h]

/-- Counterexample to C4 as stated: a 500 response leaves the store
exactly unchanged — no failing hint is written — and its result is
identical to a network failure, so Rejected and Unreachable are not
distinct outcomes. -/
theorem send_payment_5xx_counterexample :
    send_payment (.response 500) emptyStore = (false, emptyStore) ∧
    send_payment .requestError emptyStore = (false, emptyStore) := by
  constructor <;> decide

/-- The outcome of `send_payment` depends only on the HTTP result. -/
lemma send_payment_fst (r : HttpResult) (st st2 : Store) :
    (send_payment r st).1 = (send_payment r st2).1 := by
  cases r with
  | response status =>
      by_cases h : 200 ≤ status ∧ status < 300 <;> simp [send_payment, h]
  | requestError => rfl

/-- Lemma: `payment_processor` neither reads nor keeps the `failing` key: its
run from a store with any `failing` value equals its run from the
original store, with `failing` carried over unchanged. -/
lemma payment_processor_failing_indep (st : Store) (v : Option String)
    (data : Payment) (f : Bool) (t : ℚ) (r : HttpResult) :
    payment_processor { st with failing := v } data f t r =
      ({ (payment_processor st data f t r).1 with failing := v },
        (payment_processor st data f t r).2) := by
  by_cases hm : data.correlationId ∈ st.markers
  · have hm2 : data.correlationId ∈
        ({ st with failing := v } : Store).markers := hm
    rw [payment_processor_skip hm, payment_processor_skip hm2]
  · have hm2 : data.correlationId ∉
        ({ st with failing := v } : Store).markers := hm
    cases hok : (send_payment r st).1
    · have hok2 : (send_payment r { st with failing := v }).1 = false :=
        (send_payment_fst r _ st).trans hok
      rw [payment_processor_failure hm hok,
        payment_processor_failure hm2 hok2]
      cases f <;> rfl
    · have hok2 : (send_payment r { st with failing := v }).1 = true :=
        (send_payment_fst r _ st).trans hok
      rw [payment_processor_success hm hok,
        payment_processor_success hm2 hok2]
      cases f <;> rfl

/-- Lemma: `payment_processor` emits at most one event, and never a sleep. -/
lemma payment_processor_events (st : Store) (data : Payment) (f : Bool)
    (t : ℚ) (r : HttpResult) :
    (payment_processor st data f t r).2 = [] ∨
    (payment_processor st data f t r).2 =
      [Event.dispatch data.correlationId] := by
  by_cases hm : data.correlationId ∈ st.markers
  · left
    rw [payment_processor_skip hm]
  · cases hok : (send_payment r st).1
    · right
      rw [payment_processor_failure hm hok]
    · right
      rw [payment_processor_success hm hok]

/-- Lemma: `brpop` is empty exactly on the empty list. -/
lemma brpop_eq_none_iff (l : List Payment) : brpop l = none ↔ l = [] := by
  cases l with
  | nil => simp [brpop]
  | cons x xs => cases hb : brpop xs <;> simp [brpop, hb]

/-- Every fallback-worker iteration on a non-empty queue starts with the
fixed `FALLBACK_WORKER_DELAY` sleep, before anything else happens. -/
lemma fallback_iteration_head_sleep (cfg : Settings) (st2 : Store)
    (probe : Option HealthResponse) (r : HttpResult) (raises : Bool)
    (t : ℚ) (hq : st2.fallbackQueue ≠ []) :
    (fallback_worker_iteration cfg st2 probe r raises t).2.head? =
      some (Event.sleep cfg.FALLBACK_WORKER_DELAY) := by
  cases hb : brpop st2.fallbackQueue with
  | none => exact absurd ((brpop_eq_none_iff st2.fallbackQueue).mp hb) hq
  | some pr =>
      obtain ⟨rest, data⟩ := pr
      cases raises <;> simp [fallback_worker_iteration, hb]

/-- C5 (amended): workers never read `CircuitState`.  The primary worker
emits no sleep at all before dispatching, and behaves identically
whatever the `failing` key holds (it is never consulted); the fallback
worker precedes every iteration by the fixed `FALLBACK_WORKER_DELAY`
sleep irrespective of the `failing` key.  The pacing described by the
claim does not exist. -/
theorem workers_ignore_circuit_state (st : Store) (v : Option String)
    (r : HttpResult) (raises : Bool) (t : ℚ) (cfg : Settings)
    (st2 : Store) (probe : Option HealthResponse)
    (hq : st2.fallbackQueue ≠ []) :
    ((worker_iteration st r raises t).2.all
      (fun e => ! e.isSleep) = true) ∧
    (worker_iteration { st with failing := v } r raises t =
      ({ (worker_iteration st r raises t).1 with failing := v },
        (worker_iteration st r raises t).2)) ∧
    ((fallback_worker_iteration cfg st2 probe r raises t).2.head? =
      some (Event.sleep cfg.FALLBACK_WORKER_DELAY)) := by
  refine ⟨?_, ?_, fallback_iteration_head_sleep cfg st2 probe r raises t hq⟩
  · cases hb : brpop st.primaryQueue with
    | none => simp [worker_iteration, hb]
    | some pr =>
        obtain ⟨rest, data⟩ := pr
        cases raises
        · rcases payment_processor_events { st with primaryQueue := rest }
            data false t r with hev | hev <;>
            simp [worker_iteration, hb, hev, Event.isSleep]
        · simp [worker_iteration, hb]
  · cases hb : brpop st.primaryQueue with
    | none => simp [worker_iteration, hb]
    | some pr =>
        obtain ⟨rest, data⟩ := pr
        cases raises
        · have hpp := payment_processor_failing_indep
            { st with primaryQueue := rest } v data false t r
          simpa [worker_iteration, hb] using hpp
        · simp [worker_iteration, hb]

/-- Concrete instance of `workers_ignore_circuit_state`. -/
theorem workers_ignore_circuit_state_witness :
    ((worker_iteration stW1 (.response 200) false 0).2.all
      (fun e => ! e.isSleep) = true) ∧
    (worker_iteration { stW1 with failing := some "True" }
        (.response 200) false 0 =
      ({ (worker_iteration stW1 (.response 200) false 0).1 with
          failing := some "True" },
        (worker_iteration stW1 (.response 200) false 0).2)) ∧
    ((fallback_worker_iteration cfgCx stW2 none (.response 200)
        false 0).2.head? =
      some (Event.sleep cfgCx.FALLBACK_WORKER_DELAY)) :=
  workers_ignore_circuit_state stW1 (some "True") (.response 200) false 0
    cfgCx stW2 none (by decide)

/-- Counterexample to C5 as stated: with the failing flag published, the
primary worker's iteration dispatches with no sleep whatsoever before
the attempt. -/
theorem circuit_pacing_counterexample :
    stC5.failing = some "True" ∧
    (worker_iteration stC5 (.response 200) false 0).2 =
      [Event.dispatch "b1"] ∧
    sleepPrecedesDispatches false
      (worker_iteration stC5 (.response 200) false 0).2 = false := by
  refine ⟨rfl, ?_, ?_⟩ <;> decide

/-- C6 (amended): on a successful probe `health_check` stores only
`str(failing)` under the `failing` key — the reported
`minResponseTime` has no influence, and no pacing delay is computed or
published; on a failed probe the store is left entirely unchanged and
the loop tick still completes with its fixed 5-second sleep. -/
theorem health_check_flag_only (resp : HealthResponse) (st : Store)
    (m : Nat) :
    health_check (some resp) st =
      { st with failing := some (pyStr resp.failing) } ∧
    health_check (some resp) st =
      health_check (some { resp with minResponseTime := m }) st ∧
    health_check none st = st ∧
    health_check_loop_tick none st =
      (st, [Event.probe, Event.sleep 5]) :=
  ⟨rfl, rfl, rfl, rfl⟩

/-- Counterexample to C6 as stated: two successful probes whose reported
minimum response times differ wildly (7 vs 5000) publish identical
states — only the string `"False"` under `failing` — so no pacing delay
`1.5 × max(minResponseTime, floor)` is ever published (the two claimed
delays would differ). -/
theorem health_check_counterexample :
    health_check (some { failing := false, minResponseTime := 7 })
        emptyStore =
      { emptyStore with failing := some "False" } ∧
    health_check (some { failing := false, minResponseTime := 7 })
        emptyStore =
      health_check (some { failing := false, minResponseTime := 5000 })
        emptyStore ∧
    (3 : ℚ) / 2 * 7 ≠ 3 / 2 * 5000 := by
  refine ⟨rfl, rfl, ?_⟩
  norm_num

/-- C7 (amended): a failed primary-path dispatch immediately pushes the
identical two-field item `{correlationId, amount}` onto the fallback
queue — there is no `retryCount` to increment — and a failed
fallback-path dispatch pushes the same item back likewise; the delay
before each fallback attempt is the fixed `FALLBACK_WORKER_DELAY`
sleep, not an exponential `2^retryCount`. -/
theorem failed_dispatch_routing (st st2 : Store) (data : Payment)
    (t t2 : ℚ) (r r2 : HttpResult) (cfg : Settings)
    (probe : Option HealthResponse) (raises : Bool)
    (hm : data.correlationId ∉ st.markers)
    (hf : (send_payment r st).1 = false)
    (hq : st2.fallbackQueue ≠ []) :
    payment_processor st data false t r =
      ({ st with fallbackQueue := data :: st.fallbackQueue },
        [Event.dispatch data.correlationId]) ∧
    (fallback_worker_iteration cfg st2 probe r2 raises t2).2.head? =
      some (Event.sleep cfg.FALLBACK_WORKER_DELAY) := by
  refine ⟨?_, fallback_iteration_head_sleep cfg st2 probe r2 raises t2 hq⟩
  rw [payment_processor_failure hm hf]
  rfl

/-- Concrete instance of `failed_dispatch_routing`. -/
theorem failed_dispatch_routing_witness :
    payment_processor emptyStore pA false 0 (.response 500) =
      ({ emptyStore with fallbackQueue := [pA] },
        [Event.dispatch "a2"]) ∧
    (fallback_worker_iteration cfgCx stW2 none (.response 500)
        false 1).2.head? =
      some (Event.sleep cfgCx.FALLBACK_WORKER_DELAY) :=
  failed_dispatch_routing emptyStore stW2 pA 0 1 (.response 500)
    (.response 500) cfgCx none false (by decide) (by decide) (by decide)

/-- Counterexample to C7 as stated: a failed primary dispatch pushes the
very same item (no incremented `retryCount` — the stores coincide
exactly), and the delay before the following fallback attempt is the
constant `FALLBACK_WORKER_DELAY = 1`, not `2^retryCount = 2`. -/
theorem retry_routing_counterexample :
    (worker_iteration stCx (.response 500) false 0).1 =
      { emptyStore with fallbackQueue := [pA] } ∧
    (fallback_worker_iteration cfgCx
        { emptyStore with fallbackQueue := [pA] } none
        (.response 500) false 1).2 =
      [Event.sleep 1, Event.probe, Event.dispatch "a2"] ∧
    (fallback_worker_iteration cfgCx
        { emptyStore with fallbackQueue := [pA] } none
        (.response 500) false 1).1 =
      { emptyStore with fallbackQueue := [pA] } ∧
    (1 : ℚ) ≠ 2 ^ 1 := by
  refine ⟨?_, ?_, ?_, ?_⟩ <;> decide

end Rinha
